import Mathlib

/-!
Verification of the natural-language specification of the `qoyyuum` timezone
bot against its two source files, `timezones.py` and `main.py`.

The embedding models the SQLite tables as association lists in insertion
(rowid) order, machine integers as `Nat`/`Int`, the two regular expressions
of `timezones.py` as explicit scanners, and each fallible piece of Python as
an `Except`/outcome type.  Where the Python source raises at runtime (the
message-count statement calls its SQL string because the parameter tuple
follows the string literal with no separating comma, and the reminder path
subscripts `None`), the embedding returns the corresponding error value.
-/

namespace Qoyyuum

/-- Python `int(...)` on a string of ASCII digits: fold each digit into the
accumulator, `acc * 10 + digit`. -/
def digitsToNat (l : List Char) : Nat :=
  l.foldl (fun a c => a * 10 + (c.toNat - 48)) 0

/-- Character class `[0-9]` of the mention regular expression. -/
def isDigitChar (c : Char) : Bool :=
  decide (48 ≤ c.toNat ∧ c.toNat ≤ 57)

/-- Character class `[1-9]` of the `HH:MM` regular expression at
`timezones.py` line 74. -/
def isNonzeroDigit (c : Char) : Bool :=
  decide (49 ≤ c.toNat ∧ c.toNat ≤ 57)

theorem digit_value_le (c : Char) (h : isDigitChar c = true) : c.toNat - 48 ≤ 9 := by
  have := of_decide_eq_true h
  omega

theorem foldl_digits_lt (l : List Char) (hd : ∀ c ∈ l, isDigitChar c = true) :
    ∀ a : Nat, l.foldl (fun a c => a * 10 + (c.toNat - 48)) a < (a + 1) * 10 ^ l.length := by
  induction l with
  | nil => intro a; simp
  | cons c tl ih =>
    intro a
    have hc : c.toNat - 48 ≤ 9 := digit_value_le c (hd c (List.mem_cons_self c tl))
    have htl : ∀ x ∈ tl, isDigitChar x = true := fun x hx => hd x (List.mem_cons_of_mem c hx)
    have h1 := ih htl (a * 10 + (c.toNat - 48))
    have h2 : (a * 10 + (c.toNat - 48) + 1) * 10 ^ tl.length ≤ (a + 1) * 10 ^ (tl.length + 1) := by
      have : a * 10 + (c.toNat - 48) + 1 ≤ (a + 1) * 10 := by omega
      calc (a * 10 + (c.toNat - 48) + 1) * 10 ^ tl.length
        ≤ (a + 1) * 10 * 10 ^ tl.length := Nat.mul_le_mul_right _ this
        _ = (a + 1) * 10 ^ (tl.length + 1) := by ring
    simpa [List.foldl_cons] using lt_of_lt_of_le h1 h2

theorem foldl_digits_ge (l : List Char) :
    ∀ a : Nat, a * 10 ^ l.length ≤ l.foldl (fun a c => a * 10 + (c.toNat - 48)) a := by
  induction l with
  | nil => intro a; simp
  | cons c tl ih =>
    intro a
    have h1 : a * 10 ^ (tl.length + 1) ≤ (a * 10 + (c.toNat - 48)) * 10 ^ tl.length := by
      have : a * 10 ≤ a * 10 + (c.toNat - 48) := Nat.le_add_right _ _
      calc a * 10 ^ (tl.length + 1) = a * 10 * 10 ^ tl.length := by ring
        _ ≤ (a * 10 + (c.toNat - 48)) * 10 ^ tl.length := Nat.mul_le_mul_right _ this
    simpa [List.foldl_cons] using le_trans h1 (ih (a * 10 + (c.toNat - 48)))

theorem digitsToNat_lt (l : List Char) (hd : ∀ c ∈ l, isDigitChar c = true) :
    digitsToNat l < 10 ^ l.length := by
  simpa [digitsToNat] using foldl_digits_lt l hd 0

theorem digitsToNat_ge_of_head (c : Char) (tl : List Char)
    (hd : isDigitChar c = true) (h0 : c ≠ '0') :
    10 ^ tl.length ≤ digitsToNat (c :: tl) := by
  have hb := of_decide_eq_true hd
  have h48 : c.toNat ≠ 48 := by
    intro h
    exact h0 (Char.eq_of_val_eq (UInt32.ext (h.trans (by decide : (48 : Nat) = ('0' : Char).toNat))))
  have h1 : 1 ≤ c.toNat - 48 := by omega
  have := foldl_digits_ge tl (c.toNat - 48)
  have h2 : 1 * 10 ^ tl.length ≤ (c.toNat - 48) * 10 ^ tl.length :=
    Nat.mul_le_mul_right _ h1
  simp only [digitsToNat, List.foldl_cons, Nat.zero_mul, Nat.zero_add]
  omega

/-- Attempt of the regular expression `[1-9][1-9]:[1-9][1-9]`
(`timezones.py` line 74) at the start of the character list: five
consecutive characters, four nonzero digits around a colon. -/
def timeMatchAt : List Char → Option (List Char)
  | a :: b :: c :: d :: e :: _ =>
    if isNonzeroDigit a && isNonzeroDigit b && (c = ':' : Bool)
        && isNonzeroDigit d && isNonzeroDigit e then
      some [a, b, c, d, e]
    else
      none
  | _ => none

/-- Leftmost match of the `HH:MM` pattern, the `re.findall(...)[0]` of
`timezones.py` lines 73-74: scan positions left to right. -/
def findTime : List Char → Option (List Char)
  | [] => none
  | a :: tl =>
    match timeMatchAt (a :: tl) with
    | some s => some s
    | none => findTime tl

/-- Optional `!?` step of the mention pattern: skip a leading `!` if present. -/
def mentionSkipBang (rest : List Char) : List Char :=
  match rest with
  | c :: r => if c = '!' then r else rest
  | [] => rest

/-- Attempt of the regular expression `<@!?([0-9]+)>` (`timezones.py`
line 168) at the start of the character list, returning the capture group:
the maximal nonempty run of digits after `<@` or `<@!`, followed by `>`. -/
def mentionMatchAt (l : List Char) : Option (List Char) :=
  match l with
  | a :: b :: rest =>
    if (a = '<' : Bool) && (b = '@' : Bool) then
      let rest2 := mentionSkipBang rest
      let ds := rest2.takeWhile isDigitChar
      match rest2.drop ds.length with
      | c :: _ => if (c = '>' : Bool) && !ds.isEmpty then some ds else none
      | [] => none
    else
      none
  | _ => none

/-- Leftmost capture of the mention pattern, the `re.findall(...)[0]` of
`timezones.py` lines 167-168. -/
def extractMention : List Char → Option (List Char)
  | [] => none
  | a :: tl =>
    match mentionMatchAt (a :: tl) with
    | some s => some s
    | none => extractMention tl

theorem mentionMatchAt_digits (l ds : List Char) (h : mentionMatchAt l = some ds) :
    ∀ c ∈ ds, isDigitChar c = true := by
  unfold mentionMatchAt at h
  split at h
  · simp only [] at h
    split at h
    · split at h
      · split at h
        · cases h
          intro c hc
          exact List.mem_takeWhile_imp hc
        · exact absurd h (by simp)
      · exact absurd h (by simp)
    · exact absurd h (by simp)
  · exact absurd h (by simp)

theorem extractMention_digits (l ds : List Char) (h : extractMention l = some ds) :
    ∀ c ∈ ds, isDigitChar c = true := by
  induction l with
  | nil => exact absurd h (by simp [extractMention])
  | cons a tl ih =>
    unfold extractMention at h
    cases hm : mentionMatchAt (a :: tl) with
    | some s =>
      rw [hm] at h
      cases h
      exact mentionMatchAt_digits _ _ hm
    | none =>
      rw [hm] at h
      exact ih h

/-- Rows of the `timezones` table (`main.py` lines 62-67): `user_id` and the
signed hour offset `utc_diff`, in insertion order. -/
abbrev TzStore := List (Nat × Int)

inductive TzError where
  | conflict
  | notFound
deriving DecidableEq

/-- Lookup `SELECT * FROM timezones WHERE user_id = ?` followed by reading
`utc_diff`, as in `timezones.py` lines 90-91 and 181-187. -/
def timezones_get (s : TzStore) (uid : Nat) : Option Int :=
  (s.find? (fun r => r.1 == uid)).map (fun r => r.2)

/-- Store-level `Set`: the existence check of `set_timezone`
(`timezones.py` lines 89-100, the "already have a timezone set" denial)
followed, on the confirmed path, by the insert of `ConfirmTimezone.yes`
(`timezones.py` line 32). -/
def timezones_set (s : TzStore) (uid : Nat) (tz : Int) : Except TzError TzStore :=
  match s.find? (fun r => r.1 == uid) with
  | some _ => .error .conflict
  | none => .ok (s ++ [(uid, tz)])

/-- Store-level `Remove`: `remove_timezone` (`timezones.py` lines 116-139),
the "You don't have a timezone set" denial when absent, else
`DELETE FROM timezones WHERE user_id = ?`. -/
def timezones_remove (s : TzStore) (uid : Nat) : Except TzError TzStore :=
  match s.find? (fun r => r.1 == uid) with
  | none => .error .notFound
  | some _ => .ok (s.filter (fun r => r.1 != uid))

/-- Outcome of the `/timezone set` command body (`timezones.py` lines
72-114).  `invalidFormat` is the message of lines 76 and 82 (both branches
send the same text), `wrongMinute` the message of line 86, `alreadySet` the
denial of lines 93-100, and `confirm tz` the confirmation prompt of lines
102-114 carrying the computed offset `int(hours) - dt.now().hour`. -/
inductive SetOutcome where
  | invalidFormat
  | wrongMinute
  | alreadySet
  | confirm (tz : Int)
deriving DecidableEq

/-- Hour field of a matched `HH:MM` string: `time.split(':')[0]` parsed by
`int`, `timezones.py` lines 79-81. -/
def matchedHours (t : List Char) : Nat := digitsToNat (t.take 2)

/-- Minute field of a matched `HH:MM` string: `time.split(':')[1]` parsed by
`int`, `timezones.py` lines 79-81. -/
def matchedMinutes (t : List Char) : Nat := digitsToNat (t.drop 3)

/-- Body of `set_timezone` (`timezones.py` lines 72-114) as a function of
the timezone store, the invoking user, the `given_time` argument and the
current wall-clock hour and minute. -/
def set_timezone (tzs : TzStore) (uid : Nat) (given_time : String)
    (nowHour nowMinute : Nat) : SetOutcome :=
  match findTime given_time.data with
  | none => .invalidFormat
  | some t =>
    let hours := matchedHours t
    let minutes := matchedMinutes t
    -- line 81: `if 0 <= int(hours) < 24 or 0 <= int(minutes) < 59:` rejects
    if (0 ≤ hours ∧ hours < 24) ∨ (0 ≤ minutes ∧ minutes < 59) then .invalidFormat
    else if minutes ≠ nowMinute then .wrongMinute
    else match timezones_get tzs uid with
      | some _ => .alreadySet
      | none => .confirm ((hours : Int) - (nowHour : Int))

/-- Variant of `set_timezone` posited by the claim that the range check is a
no-op: identical to the source except that the branch of lines 81-83 is
removed. -/
def set_timezone_no_range_check (tzs : TzStore) (uid : Nat) (given_time : String)
    (nowHour nowMinute : Nat) : SetOutcome :=
  match findTime given_time.data with
  | none => .invalidFormat
  | some t =>
    let hours := matchedHours t
    let minutes := matchedMinutes t
    if minutes ≠ nowMinute then .wrongMinute
    else match timezones_get tzs uid with
      | some _ => .alreadySet
      | none => .confirm ((hours : Int) - (nowHour : Int))

/-- Rows of the `messages` table (`main.py` lines 71-77):
`(guild_id, channel_id, count)` in insertion order. -/
abbrev MsgRow := Nat × Nat × Nat

/-- Rows of the `cooldowns` table in insertion (rowid) order.  Modelled from
the spec: the table itself is created nowhere under `src/` (the bootstrap in
`main.py` creates only `timezones`, `messages` and `guilds`), so its schema
follows the spec's CooldownRecord: `user_id` and an absolute expiry
timestamp. -/
abbrev CdRow := Nat × Nat

/-- Runtime errors raised by the Python source itself. -/
inductive PyErr where
  /-- `TypeError: 'str' object is not callable`: the SQL string literal of
  `timezones.py` lines 152-155 is immediately followed by the parameter
  tuple with no separating comma, so the string is called. -/
  | typeErrorStrNotCallable
  /-- `TypeError: 'NoneType' object is not subscriptable`:
  `your_timezone_data['utc_diff']` at `timezones.py` line 198 runs only when
  `your_timezone_data` is `None` (line 195 returned otherwise). -/
  | typeErrorNoneNotSubscriptable
  /-- `ValueError`: `int(mention[2:-1])` at `timezones.py` line 172 when the
  sliced string is empty (captured ID of three or fewer digits). -/
  | valueErrorEmptyInt
deriving DecidableEq

/-- State of a `tasks.loop`. -/
inductive TaskState where
  | running
  | stopped
deriving DecidableEq, BEq

/-- Result of one tick of the sweep task `clear_db`. -/
structure ClearResult where
  rows : List MsgRow
  deleted : Nat
  task : TaskState
deriving DecidableEq

/-- Body of `clear_db` (`timezones.py` lines 220-231): `DELETE FROM
messages` removes every row, `SELECT changes()` reports how many, and the
task cancels itself when that number is zero. -/
def clear_db_tick (msgs : List MsgRow) : ClearResult :=
  let changes := msgs.length
  { rows := [], deleted := changes,
    task := if changes = 0 then .stopped else .running }

/-- Erroneous message-count statement of `timezones.py` lines 151-155.  The
source reads

    await conn.execute("""INSERT INTO messages ... DO SET count = count + 1"""
                          (message.guild.id, message.channel.id)
                      )

with no comma after the string literal, so evaluating the argument calls
the string with the tuple and raises `TypeError: 'str' object is not
callable` before `conn.execute` runs; no row is read or written.  (Were the
comma added, the statement would still fail: SQLite requires `DO UPDATE
SET`, the schema of `main.py` lines 71-77 has no composite unique key on
`(guild_id, channel_id)` for `ON CONFLICT` to target, and the `INSERT`
omits `count`, whose schema default is 0, not 1.) -/
def increment_messages (msgs : List MsgRow) (guildId channelId : Nat) :
    Except PyErr (List MsgRow) :=
  .error .typeErrorStrNotCallable

/-- Modelled from the spec: the intended `Increment(guild_id, channel_id)`
upsert of spec section 4.2 — create the composite-keyed row with count 1
when absent, else add 1 to its count.  Stated only to compare with
`increment_messages`; it is not code of the repository. -/
def increment_spec (msgs : List MsgRow) (guildId channelId : Nat) : List MsgRow :=
  if msgs.any (fun r => r.1 == guildId && r.2.1 == channelId) then
    msgs.map (fun r =>
      if r.1 == guildId && r.2.1 == channelId then (r.1, r.2.1, r.2.2 + 1) else r)
  else
    msgs ++ [(guildId, channelId, 1)]

/-- Result of one iteration of the cooldown-expiry task `update_cooldowns`. -/
inductive ExpiryStep where
  /-- No row was fetched: `self.update_cooldowns.cancel()` (line 240).  (The
  body then still evaluates `row['cooldown']` on the missing row and dies
  with a `TypeError`; either way the task does not continue.) -/
  | stopped
  /-- A row was fetched: suspend until `row['cooldown']`, then
  `DELETE FROM cooldowns WHERE user_id = ?` for that row's user, and loop.
  `target` is the suspension timestamp and `remaining` the table contents
  after the delete. -/
  | waitThenDelete (target : Nat) (remaining : List CdRow)
deriving DecidableEq

/-- Body of one iteration of `update_cooldowns` (`timezones.py` lines
233-245).  `SELECT * FROM cooldowns LIMIT 1` carries no `ORDER BY`, so it
fetches the first row in table (rowid/insertion) order. -/
def update_cooldowns_iter (cds : List CdRow) : ExpiryStep :=
  match cds with
  | [] => .stopped
  | (uid, exp) :: tl =>
    .waitThenDelete exp (((uid, exp) :: tl).filter (fun r => r.1 != uid))

/-- The earliest expiry timestamp among the cooldown rows — the row the
claim says each iteration fetches.  Stated only to compare with
`update_cooldowns_iter`. -/
def specEarliestExpiry (cds : List CdRow) : Option Nat :=
  (cds.map (fun r => r.2)).min?

/-- Persistent state touched by the cog: the three stores and the running
flag of the `clear_db` task. -/
structure BotState where
  timezones : TzStore
  cooldowns : List CdRow
  messages : List MsgRow
  clearDbRunning : Bool
deriving DecidableEq

/-- Fields of an inbound message event used by the listener. -/
structure InMsg where
  guildId : Option Nat
  authorBot : Bool
  authorId : Nat
  channelId : Nat
  content : List Char
deriving DecidableEq

/-- Result of running the listener (or a phase of it): either a normal
return carrying the new state and the reply sent (if any), or an uncaught
Python exception carrying the state at the point it was raised. -/
inductive HandlerOutcome where
  | ok (st : BotState) (reply : Option String)
  | error (e : PyErr) (st : BotState)
deriving DecidableEq

def outcomeState : HandlerOutcome → BotState
  | .ok st _ => st
  | .error _ st => st

def outcomeReply : HandlerOutcome → Option String
  | .ok _ r => r
  | .error _ _ => none

/-- Lookup key computed at `timezones.py` line 172:
`userID = int(mention[2:-1])`, the captured digit string with its first two
and last characters removed. -/
def mention_lookup_key (s : List Char) : Nat :=
  digitsToNat ((s.drop 2).dropLast)

/-- The `on_message` listener `check_messages_per_minute` (`timezones.py`
lines 141-218), exactly as the source runs: after the guild/bot guard
(line 143) and the `clear_db` restart (lines 146-149), the message-count
statement of lines 151-155 raises `TypeError` (see `increment_messages`),
which propagates out of the listener; nothing later in the body runs and no
table is touched. -/
def check_messages_per_minute (st : BotState) (m : InMsg) : HandlerOutcome :=
  if m.guildId.isNone || m.authorBot then .ok st none
  else
    let st1 := { st with clearDbRunning := true }
    .error .typeErrorStrNotCallable st1

/-- Remainder of the listener body, `timezones.py` lines 157-218, as it
would run from the cooldown check onward (the code that the raising
statement of lines 151-155 makes unreachable): check-then-insert of the
author's cooldown (157-165), mention capture (167-170), the mangled ID
lookup (172, 180-185), the author lookup with the inverted conditional
`if your_timezone_data: return` (192-196), and the `None` subscript of line
198 on the only remaining path.  The reply of lines 203-218 (and the second
cooldown insert of line 218) is unreachable: every path to it has already
returned or raised. -/
def after_increment (st : BotState) (m : InMsg) (now : Nat) : HandlerOutcome :=
  match st.cooldowns.find? (fun r => r.1 == m.authorId) with
  | some _ => .ok st none
  | none =>
    let st1 := { st with cooldowns := st.cooldowns ++ [(m.authorId, now + 15 * 60)] }
    match extractMention m.content with
    | none => .ok st1 none
    | some s =>
      if (s.drop 2).dropLast = [] then .error .valueErrorEmptyInt st1
      else
        let userID := mention_lookup_key s
        match timezones_get st1.timezones userID with
        | none => .ok st1 none
        | some _ =>
          match timezones_get st1.timezones m.authorId with
          | some _ => .ok st1 none
          | none => .error .typeErrorNoneNotSubscriptable st1

/-- Time-difference field of the reminder embed, `timezones.py` line 205:
`"You are {abs(your_tz - their_tz)} hours ahead of {mention}."` when
`your_tz - their_tz > 0`, else `"{mention} is {abs(your_tz - their_tz)}
hours ahead of you."`. -/
def timeDifferenceField (your_tz their_tz : Int) (mention : String) : String :=
  if your_tz - their_tz > 0 then
    "You are " ++ toString (your_tz - their_tz).natAbs ++ " hours ahead of " ++ mention ++ "."
  else
    mention ++ " is " ++ toString (your_tz - their_tz).natAbs ++ " hours ahead of you."

/-- Initial state: empty tables (`main.py` bootstrap) and `clear_db` started
by `cog_load` (`timezones.py` lines 59-62). -/
def initState : BotState :=
  { timezones := [], cooldowns := [], messages := [], clearDbRunning := true }

/-- One atomic step of the system: an inbound message processed by the
listener, a store-level timezone set or remove, a tick of `clear_db`, or a
completed iteration of `update_cooldowns`. -/
inductive Step : BotState → BotState → Prop where
  | message (st : BotState) (m : InMsg) :
      Step st (outcomeState (check_messages_per_minute st m))
  | timezoneSet (st : BotState) (uid : Nat) (tz : Int) (tzs' : TzStore) :
      timezones_set st.timezones uid tz = .ok tzs' →
      Step st { st with timezones := tzs' }
  | timezoneRemove (st : BotState) (uid : Nat) (tzs' : TzStore) :
      timezones_remove st.timezones uid = .ok tzs' →
      Step st { st with timezones := tzs' }
  | sweep (st : BotState) :
      Step st { st with messages := (clear_db_tick st.messages).rows,
                        clearDbRunning := (clear_db_tick st.messages).task == .running }
  | expire (st : BotState) (t : Nat) (rem : List CdRow) :
      update_cooldowns_iter st.cooldowns = .waitThenDelete t rem →
      Step st { st with cooldowns := rem }

/-- States reachable from the freshly-bootstrapped bot. -/
def Reachable (st : BotState) : Prop :=
  Relation.ReflTransGen Step initState st

end Qoyyuum

namespace Qoyyuum

/-- C2 counterexample: with two cooldown rows in insertion order, the row
expiring at 100 inserted before the row expiring at 50, the iteration
suspends until 100 and deletes that row — not the earliest-expiring row
(expiry 50) the claim says it fetches. -/
theorem update_cooldowns_not_earliest_counterexample :
    update_cooldowns_iter [(1, 100), (2, 50)] = .waitThenDelete 100 [(2, 50)] ∧
    specEarliestExpiry [(1, 100), (2, 50)] = some 50 ∧
    update_cooldowns_iter [(1, 100), (2, 50)] ≠ .waitThenDelete 50 [(1, 100)] := by
  refine ⟨by decide, by decide, by decide⟩

/-- C2 amended: each iteration of `update_cooldowns` fetches the FIRST
cooldown row in table (insertion) order — `SELECT ... LIMIT 1` with no
`ORDER BY` — not necessarily the earliest-expiring one; if no row exists
the task stops; otherwise it suspends until the fetched row's expiry
timestamp, then deletes that row's user's rows (a subset of the rest of the
table) and loops. -/
theorem update_cooldowns_iter_first_row :
    update_cooldowns_iter [] = .stopped ∧
    ∀ (uid exp : Nat) (tl : List CdRow), ∃ rem,
      update_cooldowns_iter ((uid, exp) :: tl) = .waitThenDelete exp rem ∧
      (∀ r ∈ rem, r.1 ≠ uid) ∧ rem.Sublist tl := by
  refine ⟨rfl, ?_⟩
  intro uid exp tl
  refine ⟨tl.filter (fun r => r.1 != uid), ?_, ?_, List.filter_sublist tl⟩
  · unfold update_cooldowns_iter
    simp [List.filter_cons]
  · intro r hr
    have := (List.mem_filter.mp hr).2
    simpa using this

/-- C2 witness: the amended statement at a one-row table. -/
theorem update_cooldowns_iter_first_row_witness :
    ∃ rem, update_cooldowns_iter [(3, 77)] = .waitThenDelete 77 rem ∧
      (∀ r ∈ rem, r.1 ≠ 3) ∧ rem.Sublist [] :=
  update_cooldowns_iter_first_row.2 3 77 []

/-- C3: one tick of `clear_db` with N > 0 message-count rows deletes all N
rows and leaves the task Running; one tick with 0 rows deletes 0 rows and
moves the task to Stopped. -/
theorem clear_db_tick_sweeps_all_and_self_stops (msgs : List MsgRow) :
    (0 < msgs.length →
      (clear_db_tick msgs).deleted = msgs.length ∧
      (clear_db_tick msgs).rows = [] ∧
      (clear_db_tick msgs).task = .running) ∧
    (msgs = [] →
      (clear_db_tick msgs).deleted = 0 ∧
      (clear_db_tick msgs).task = .stopped) := by
  constructor
  · intro h
    refine ⟨rfl, rfl, ?_⟩
    unfold clear_db_tick
    simp [Nat.ne_of_gt h]
  · intro h
    subst h
    exact ⟨rfl, rfl⟩

/-- C3 witness: a one-row tick keeps the task Running, an empty tick stops
it. -/
theorem clear_db_tick_sweeps_all_and_self_stops_witness :
    (clear_db_tick [(1, 2, 3)]).task = .running ∧
    (clear_db_tick ([] : List MsgRow)).task = .stopped :=
  ⟨((clear_db_tick_sweeps_all_and_self_stops [(1, 2, 3)]).1 (by decide)).2.2,
   ((clear_db_tick_sweeps_all_and_self_stops []).2 rfl).2⟩

/-- C4: for every qualifying inbound message (in a guild, non-bot author)
whose mentioned user — the user whose ID `int(s)` is the captured digit
string s — has no timezone record, the listener produces no reminder and
inserts no cooldown row for the author, and none of the three stores
changes.  This holds for a blunter reason than the spec intends: the
listener raises `TypeError` at the message-count statement of lines 151-155
(see `increment_messages`), before the cooldown insert of line 163 or any
timezone lookup can run, so no store is ever written by the listener,
whatever the two parties' timezone rows are. -/
theorem handler_no_reminder_no_cooldown (st : BotState) (m : InMsg)
    (hg : m.guildId.isSome = true) (hb : m.authorBot = false)
    (htz : ∀ s, extractMention m.content = some s →
      timezones_get st.timezones (digitsToNat s) = none) :
    outcomeReply (check_messages_per_minute st m) = none ∧
    (outcomeState (check_messages_per_minute st m)).cooldowns = st.cooldowns ∧
    (outcomeState (check_messages_per_minute st m)).timezones = st.timezones ∧
    (outcomeState (check_messages_per_minute st m)).messages = st.messages := by
  unfold check_messages_per_minute
  have hn : m.guildId.isNone = false := by
    cases hgg : m.guildId with
    | none => rw [hgg] at hg; cases hg
    | some g => rfl
  rw [hn, hb]
  exact ⟨rfl, rfl, rfl, rfl⟩

/-- C4 witness: a concrete qualifying message mentioning a user with no
timezone record. -/
theorem handler_no_reminder_no_cooldown_witness :
    outcomeReply (check_messages_per_minute initState
      { guildId := some 1, authorBot := false, authorId := 2, channelId := 3,
        content := "<@45>".data }) = none ∧
    (outcomeState (check_messages_per_minute initState
      { guildId := some 1, authorBot := false, authorId := 2, channelId := 3,
        content := "<@45>".data })).cooldowns = initState.cooldowns :=
  have h := handler_no_reminder_no_cooldown initState
    { guildId := some 1, authorBot := false, authorId := 2, channelId := 3,
      content := "<@45>".data } rfl rfl (fun _ _ => rfl)
  ⟨h.1, h.2.1⟩

/-- C5: the message-count upsert never happens.  `increment_messages`
(the statement of `timezones.py` lines 151-155) raises `TypeError` on every
input because the parameter tuple is applied to the SQL string, while the
spec's intended upsert `increment_spec` would create the absent row with
count 1.  The concrete failing input: guild 1, channel 1, empty table. -/
theorem increment_messages_always_raises :
    increment_messages [] 1 1 = .error .typeErrorStrNotCallable ∧
    increment_spec [] 1 1 = [(1, 1, 1)] ∧
    (∀ (msgs : List MsgRow) (g c : Nat),
      increment_messages msgs g c = .error .typeErrorStrNotCallable) :=
  ⟨rfl, rfl, fun _ _ _ => rfl⟩

theorem handler_preserves_cooldowns (st : BotState) (m : InMsg) :
    (outcomeState (check_messages_per_minute st m)).cooldowns = st.cooldowns := by
  unfold check_messages_per_minute
  cases hgg : m.guildId.isNone || m.authorBot with
  | true => simp [outcomeState]
  | false => simp [outcomeState]

theorem expire_preserves_pairwise (cds : List CdRow) (t : Nat) (rem : List CdRow)
    (hit : update_cooldowns_iter cds = .waitThenDelete t rem)
    (hp : cds.Pairwise (fun a b => a.1 ≠ b.1)) :
    rem.Pairwise (fun a b => a.1 ≠ b.1) := by
  cases cds with
  | nil => cases hit
  | cons p tl =>
    obtain ⟨uid, exp⟩ := p
    unfold update_cooldowns_iter at hit
    cases hit
    exact hp.sublist (List.filter_sublist _)

/-- C6: in every reachable state, each user has at most one cooldown row;
in particular no single step — the listener (which, raising at lines
151-155, never reaches the inserts of lines 163 and 218), a timezone set or
remove, a sweep tick, or a cooldown expiry — leaves two cooldown rows for
the same user. -/
theorem cooldowns_at_most_one_per_user (st : BotState) (h : Reachable st) :
    st.cooldowns.Pairwise (fun a b => a.1 ≠ b.1) := by
  induction h with
  | refl => simp [initState]
  | tail _ step ih =>
    cases step with
    | message m => rw [handler_preserves_cooldowns]; exact ih
    | timezoneSet uid tz tzs' _ => exact ih
    | timezoneRemove uid tzs' _ => exact ih
    | sweep => exact ih
    | expire t rem hit => exact expire_preserves_pairwise _ t rem hit ih

/-- C6 witness: the invariant at the initial (reachable) state. -/
theorem cooldowns_at_most_one_per_user_witness :
    initState.cooldowns.Pairwise (fun a b => a.1 ≠ b.1) :=
  cooldowns_at_most_one_per_user initState Relation.ReflTransGen.refl

/-- C7: the "5 hours ahead" reminder is never emitted.  With the author
(id 10) holding offset +2 and the row at the looked-up id holding offset
-3, and the author not on cooldown, the full listener raises `TypeError` at
the message-count statement, and even the remainder of the body
(`after_increment`, lines 157-218) returns with NO reply: the inverted
conditional `if your_timezone_data: return` at line 195 bails out exactly
when the author's offset is set.  The formatting expression of line 205
itself would indeed report "You are 5 hours ahead of ..." for offsets
(+2, -3), as the claim says — but no execution path reaches it. -/
theorem reminder_never_sent_for_configured_users :
    check_messages_per_minute
      { timezones := [(10, 2), (3, -3)], cooldowns := [], messages := [],
        clearDbRunning := true }
      { guildId := some 1, authorBot := false, authorId := 10, channelId := 5,
        content := "<@1234>".data }
      = .error .typeErrorStrNotCallable
          { timezones := [(10, 2), (3, -3)], cooldowns := [], messages := [],
            clearDbRunning := true } ∧
    after_increment
      { timezones := [(10, 2), (3, -3)], cooldowns := [], messages := [],
        clearDbRunning := true }
      { guildId := some 1, authorBot := false, authorId := 10, channelId := 5,
        content := "<@1234>".data } 1000
      = .ok { timezones := [(10, 2), (3, -3)], cooldowns := [(10, 1900)],
              messages := [], clearDbRunning := true } none ∧
    timeDifferenceField 2 (-3) "<@1234>" = "You are 5 hours ahead of <@1234>." := by
  refine ⟨by decide, by decide, by decide⟩

/-- C8 counterexample: the range-check branch of lines 81-83 does change
the command's outcome.  Input `12:34` is accepted by the pattern match, yet
with the branch the command answers the invalid-format message while
without it (current time 5:34, no row for the user) it reaches the
confirmation with offset 12 - 5 = 7. -/
theorem range_check_changes_outcome_counterexample :
    set_timezone [] 1 "12:34" 5 34 = .invalidFormat ∧
    set_timezone_no_range_check [] 1 "12:34" 5 34 = .confirm 7 ∧
    SetOutcome.invalidFormat ≠ SetOutcome.confirm 7 := by
  refine ⟨by decide, by decide, by decide⟩

/-- C8 amended: the range check of line 81 is not a no-op but an inverted
filter: for every pattern-matched input whose hour value is below 24 or
whose minute value is below 59 it rejects with the invalid-format message
where the check-free command would not, and only for matched inputs with
hour at least 24 and minute at least 59 does removing the branch leave the
outcome unchanged. -/
theorem range_check_inverted (tzs : TzStore) (uid : Nat) (gt : String)
    (nowHour nowMinute : Nat) :
    (∀ t, findTime gt.data = some t →
      matchedHours t < 24 ∨ matchedMinutes t < 59 →
      set_timezone tzs uid gt nowHour nowMinute = .invalidFormat ∧
      set_timezone_no_range_check tzs uid gt nowHour nowMinute ≠ .invalidFormat) ∧
    (∀ t, findTime gt.data = some t →
      24 ≤ matchedHours t → 59 ≤ matchedMinutes t →
      set_timezone tzs uid gt nowHour nowMinute
        = set_timezone_no_range_check tzs uid gt nowHour nowMinute) := by
  constructor
  · intro t ht hlt
    have hcond : (0 ≤ matchedHours t ∧ matchedHours t < 24) ∨
        (0 ≤ matchedMinutes t ∧ matchedMinutes t < 59) := by omega
    constructor
    · simp only [set_timezone, ht, if_pos hcond]
    · simp only [set_timezone_no_range_check, ht]
      split
      · simp
      · split <;> simp
  · intro t ht h24 h59
    have hcond : ¬((0 ≤ matchedHours t ∧ matchedHours t < 24) ∨
        (0 ≤ matchedMinutes t ∧ matchedMinutes t < 59)) := by omega
    simp only [set_timezone, set_timezone_no_range_check, ht, if_neg hcond]

/-- C8 witness: the amended statement at the concrete matched input
`12:34` (hour 12 < 24). -/
theorem range_check_inverted_witness :
    set_timezone [] 1 "12:34" 5 34 = .invalidFormat ∧
    set_timezone_no_range_check [] 1 "12:34" 5 34 ≠ .invalidFormat :=
  (range_check_inverted [] 1 "12:34" 5 34).1 ['1', '2', ':', '3', '4']
    (by decide) (by decide)

theorem timeMatchAt_short (l : List Char) (h : l.length ≤ 4) : timeMatchAt l = none :=
  match l with
  | [] => rfl
  | [_] => rfl
  | [_, _] => rfl
  | [_, _, _] => rfl
  | [_, _, _, _] => rfl
  | _ :: _ :: _ :: _ :: _ :: _ => by simp at h

/-- C9: the `HH:MM` pattern of line 74 only matches the digits 1-9 in all
four positions: a five-character `HH:MM`-shaped input containing a `0`
digit fails the pattern match and the command answers the invalid-format
message. -/
theorem zero_digit_time_rejected (a b c d : Char) (tzs : TzStore) (uid : Nat)
    (nowHour nowMinute : Nat)
    (ha : isDigitChar a = true) (hb : isDigitChar b = true)
    (hc : isDigitChar c = true) (hd : isDigitChar d = true)
    (h0 : a = '0' ∨ b = '0' ∨ c = '0' ∨ d = '0') :
    set_timezone tzs uid (String.mk [a, b, ':', c, d]) nowHour nowMinute
      = .invalidFormat := by
  have hz : isNonzeroDigit '0' = false := by decide
  have hw : timeMatchAt [a, b, ':', c, d] = none := by
    unfold timeMatchAt
    rcases h0 with h | h | h | h <;> subst h <;> simp [hz]
  have hft : findTime [a, b, ':', c, d] = none := by
    unfold findTime
    rw [hw]
    unfold findTime
    rw [timeMatchAt_short _ (by simp)]
    unfold findTime
    rw [timeMatchAt_short _ (by simp)]
    unfold findTime
    rw [timeMatchAt_short _ (by simp)]
    unfold findTime
    rw [timeMatchAt_short _ (by simp)]
    rfl
  unfold set_timezone
  rw [show (String.mk [a, b, ':', c, d]).data = [a, b, ':', c, d] from rfl, hft]

/-- C9 witness: the concrete input `10:05` from the claim. -/
theorem zero_digit_time_rejected_witness :
    set_timezone [] 1 (String.mk ['1', '0', ':', '0', '5']) 3 5 = .invalidFormat :=
  zero_digit_time_rejected '1' '0' '0' '5' [] 1 3 5
    (by decide) (by decide) (by decide) (by decide) (Or.inr (Or.inl rfl))

/-- C10: for every message content whose first mention capture is the digit
string s of four or more digits (no leading zero, as for any actual ID),
the key the listener code computes for the timezone lookup —
`int(mention[2:-1])`, s with its first two and last characters removed —
differs from the mentioned user's actual ID `int(s)`; consequently, even
when the actual ID has a timezone row, the post-increment body looks up the
mangled key, finds nothing, and returns without a reply. -/
theorem mention_lookup_key_mismatch (st : BotState) (m : InMsg) (now : Nat)
    (s : List Char)
    (hm : extractMention m.content = some s)
    (hlen : 4 ≤ s.length)
    (h0 : s.head? ≠ some '0') :
    mention_lookup_key s ≠ digitsToNat s ∧
    (st.cooldowns = [] →
      timezones_get st.timezones (mention_lookup_key s) = none →
      after_increment st m now
        = .ok { st with cooldowns := [(m.authorId, now + 15 * 60)] } none) := by
  have hdig : ∀ c ∈ s, isDigitChar c = true := extractMention_digits m.content s hm
  have hmidlen : ((s.drop 2).dropLast).length = s.length - 3 := by
    rw [List.length_dropLast, List.length_drop]
    omega
  constructor
  · cases hs : s with
    | nil => rw [hs] at hlen; simp at hlen
    | cons c tl =>
      rw [hs] at hdig h0 hlen hmidlen
      have hc0 : c ≠ '0' := by
        intro h; exact h0 (by rw [h]; rfl)
      have hlow : 10 ^ tl.length ≤ digitsToNat (c :: tl) :=
        digitsToNat_ge_of_head c tl (hdig c (List.mem_cons_self c tl)) hc0
      have hmiddig : ∀ x ∈ ((c :: tl).drop 2).dropLast, isDigitChar x = true := by
        intro x hx
        have hsub : (((c :: tl).drop 2).dropLast).Sublist (c :: tl) :=
          (List.dropLast_sublist _).trans (List.drop_sublist 2 (c :: tl))
        exact hdig x (hsub.mem hx)
      have hup : digitsToNat (((c :: tl).drop 2).dropLast)
          < 10 ^ (((c :: tl).drop 2).dropLast).length :=
        digitsToNat_lt _ hmiddig
      have hpow : 10 ^ (((c :: tl).drop 2).dropLast).length ≤ 10 ^ tl.length := by
        apply Nat.pow_le_pow_right (by omega)
        rw [hmidlen]
        simp only [List.length_cons] at hlen ⊢
        omega
      unfold mention_lookup_key
      omega
  · intro hcd htz
    obtain ⟨tzs, cds, msgs, flag⟩ := st
    simp only at hcd htz
    subst hcd
    have hne : (s.drop 2).dropLast ≠ [] := by
      intro h
      rw [h] at hmidlen
      simp only [List.length_nil] at hmidlen
      omega
    simp only [after_increment, List.find?_nil, hm, if_neg hne, htz, List.nil_append]

/-- C10 witness: content `<@1234>` captures `1234`; the code looks up
`int("1234"[2:-1]) = 3`, not 1234, so even with a timezone row for user
1234 the body returns no reply (and has inserted the author's cooldown). -/
theorem mention_lookup_key_mismatch_witness :
    mention_lookup_key ['1', '2', '3', '4'] ≠ digitsToNat ['1', '2', '3', '4'] ∧
    after_increment
      { timezones := [(1234, 5)], cooldowns := [], messages := [],
        clearDbRunning := true }
      { guildId := some 1, authorBot := false, authorId := 7, channelId := 9,
        content := "<@1234>".data } 0
      = .ok { timezones := [(1234, 5)], cooldowns := [(7, 0 + 15 * 60)],
              messages := [], clearDbRunning := true } none :=
  have h := mention_lookup_key_mismatch
    { timezones := [(1234, 5)], cooldowns := [], messages := [],
      clearDbRunning := true }
    { guildId := some 1, authorBot := false, authorId := 7, channelId := 9,
      content := "<@1234>".data } 0 ['1', '2', '3', '4']
    (by decide) (by decide) (by decide)
  ⟨h.1, h.2 rfl (by decide)⟩

end Qoyyuum
